import Mathlib

/-!
Shallow embedding of the build orchestration logic of `setup.py` from the
pyflagser repository: the `CMakeExtension` target descriptor and the
`CMakeBuild` command (`run`, `install_dependencies`, `build_extension`),
together with faithful models of the Python string/path primitives the
script uses (`str.startswith`, `str.upper`, `str.join`, `os.path.abspath`,
`os.path.join`, `re.findall`, `re.search`, version parsing/comparison).

External collaborators (setuptools' `get_ext_fullpath`, the subprocess
layer, the filesystem) are represented by explicit parameters: subprocess
calls become `Invocation` values collected in a trace, exit statuses of
the external tools are boolean parameters, and the filesystem is a
predicate on paths.
-/

/-! ## Python string primitives, modelled on `List Char` -/

/-- Boolean prefix test on character lists; `listPre p s` models
`s.startswith(p)` at the character level. -/
def listPre : List Char → List Char → Bool
  | [], _ => true
  | _ :: _, [] => false
  | a :: as, b :: bs => a = b && listPre as bs

/-- Models Python `s.startswith(pre)`. -/
def strStarts (pre s : String) : Bool := listPre pre.data s.data

/-- Models Python `s.upper()` for the ASCII strings used by the script. -/
def strUpper (s : String) : String := String.mk (s.data.map Char.toUpper)

/-- Models Python `sep.join(xs)`. -/
def joinWith (sep : String) : List String → String
  | [] => ""
  | [x] => x
  | x :: y :: xs => x ++ sep ++ joinWith sep (y :: xs)

/-- Models Python `s.split('/')` on character lists (used by
`posixpath.normpath`).  The result is always nonempty. -/
def splitSlash : List Char → List (List Char)
  | [] => [[]]
  | c :: rest =>
    let r := splitSlash rest
    if c = '/' then [] :: r
    else (c :: r.headD []) :: r.tail

/-- Models Python `s.split('.')` on character lists (used on the version
group matched from the tool's output). -/
def splitDot : List Char → List (List Char)
  | [] => [[]]
  | c :: rest =>
    let r := splitDot rest
    if c = '.' then [] :: r
    else (c :: r.headD []) :: r.tail

/-- Numeric value of a decimal digit character. -/
def digitVal (c : Char) : Nat := c.toNat - 48

/-- Models Python `int(chunk)` for a chunk of a dotted version string:
defined exactly when the chunk is a nonempty run of decimal digits. -/
def chunkToNat (cs : List Char) : Option Nat :=
  if cs ≠ [] ∧ cs.all Char.isDigit then
    some (cs.foldl (fun n c => n * 10 + digitVal c) 0)
  else none

/-! ## POSIX path primitives (`os.path`) -/

/-- Models `os.path.isabs` on POSIX: the path starts with a slash. -/
def isAbs (p : String) : Bool := p.data.head? = some '/'

/-- True when the path's last character is a slash (Python
`a.endswith('/')` as used by `posixpath.join`). -/
def endsWithSlash (a : String) : Bool := a.data.getLast? = some '/'

/-- Models the two-argument `os.path.join` on POSIX. -/
def pathJoin (a b : String) : String :=
  if isAbs b then b
  else if a = "" ∨ endsWithSlash a then a ++ b
  else a ++ "/" ++ b

/-- Number of initial slashes that `posixpath.normpath` preserves:
1 for a single leading slash, 2 for exactly two leading slashes,
1 again for three or more, 0 for a relative path. -/
def leadSlashes (cs : List Char) : Nat :=
  if cs.head? = some '/' then
    if (cs.drop 1).head? = some '/' ∧ ¬ (cs.drop 2).head? = some '/' then 2
    else 1
  else 0

/-- The string of preserved initial slashes. -/
def slashString : Nat → String
  | 2 => "//"
  | 1 => "/"
  | _ => ""

/-- One step of `posixpath.normpath`'s component loop: skip empty and `.`
components, resolve `..` against the accumulated components. -/
def npStep (slashes : Nat) (acc : List (List Char)) (comp : List Char) :
    List (List Char) :=
  if comp = [] ∨ comp = ['.'] then acc
  else if comp ≠ ['.', '.'] ∨ (slashes = 0 ∧ acc = []) ∨
      (acc ≠ [] ∧ acc.getLast? = some ['.', '.']) then acc ++ [comp]
  else if acc ≠ [] then acc.dropLast else acc

/-- Models `posixpath.normpath`. -/
def normpath (path : String) : String :=
  if path.data = [] then "."
  else
    let slashes := leadSlashes path.data
    let comps := splitSlash path.data
    let newComps := comps.foldl (npStep slashes) []
    let res := slashString slashes ++ joinWith "/" (newComps.map String.mk)
    if res.data = [] then "." else res

/-- Models `os.path.abspath` on POSIX, with the process working directory
passed explicitly: join with `cwd` when the path is relative, then
normalize. -/
def abspath (cwd p : String) : String :=
  normpath (if isAbs p then p else pathJoin cwd p)

/-! ## Target descriptor (`CMakeExtension`) -/

/-- The target descriptor built by `CMakeExtension.__init__`: the
`Extension` base is initialized with `sources=[]` and the source
directory is made absolute with `os.path.abspath(sourcedir)`. -/
structure CMakeExtension where
  name : String
  sources : List String
  sourcedir : String
deriving Repr

/-- Models `CMakeExtension.__init__(name, sourcedir='')` with the process
working directory passed explicitly. -/
def CMakeExtension.init (cwd : String) (name : String)
    (sourcedir : String := "") : CMakeExtension :=
  { name := name, sources := [], sourcedir := abspath cwd sourcedir }

/-! ## Host environment -/

/-- The ambient host state the script reads: `platform.system()`,
`sys.platform`, `sys.maxsize`, `sys.executable` and `os.environ`. -/
structure Host where
  system : String
  sysPlatform : String
  maxsize : Nat
  executable : String
  environ : String → Option String

/-! ## Regular-expression models -/

/-- Python whitespace class for ASCII input. -/
def isPySpace (c : Char) : Bool :=
  c = ' ' ∨ c = '\t' ∨ c = '\n' ∨ c = '\r' ∨ c = '\x0c' ∨ c = '\x0b'

/-- One attempt to match the regular expression for an `ARCHFLAGS` token
at the head of the input: the literal `-arch ` followed by a maximal
nonempty run of non-whitespace characters.  Returns the captured token
and the input remaining after the whole match. -/
def matchArch (cs : List Char) : Option (String × List Char) :=
  match cs with
  | '-' :: 'a' :: 'r' :: 'c' :: 'h' :: ' ' :: rest =>
    let tok := rest.takeWhile (fun c => ¬ isPySpace c)
    if tok = [] then none else some (String.mk tok, rest.drop tok.length)
  | _ => none

/-- Fueled scan for all non-overlapping matches, advancing one character
on failure (the fuel is always at least the input length, so it never
runs out before the input does). -/
def findArchsFuel : Nat → List Char → List String
  | 0, _ => []
  | _ + 1, [] => []
  | fuel + 1, c :: rest =>
    match matchArch (c :: rest) with
    | some (tok, rest2) => tok :: findArchsFuel fuel rest2
    | none => findArchsFuel fuel rest

/-- Models `re.findall(r"-arch (\S+)", s)`. -/
def findArchs (cs : List Char) : List String := findArchsFuel cs.length cs

/-- One attempt to match the version regular expression at the head of
the input: the literal `version`, optional whitespace, then a maximal
nonempty run of digits and dots (the captured group). -/
def matchVersionAt (cs : List Char) : Option (List Char) :=
  match cs with
  | 'v' :: 'e' :: 'r' :: 's' :: 'i' :: 'o' :: 'n' :: rest =>
    let rest2 := rest.dropWhile isPySpace
    let tok := rest2.takeWhile (fun c => Char.isDigit c ∨ c = '.')
    if tok = [] then none else some tok
  | _ => none

/-- Fueled left-to-right scan for the first match. -/
def searchVerFuel : Nat → List Char → Option (List Char)
  | 0, _ => none
  | _ + 1, [] => none
  | fuel + 1, c :: rest =>
    match matchVersionAt (c :: rest) with
    | some tok => some tok
    | none => searchVerFuel fuel rest

/-- Models the group captured by the first match of
`re.search(r'version\s*([\d.]+)', out)`, if any. -/
def searchVerGroup (cs : List Char) : Option (List Char) :=
  searchVerFuel cs.length cs

/-! ## Version parsing and comparison -/

/-- Models parsing the matched group (digits and dots) as a release
version: every dot-separated chunk must be a nonempty digit run. -/
def parseRelease (cs : List Char) : Option (List Nat) :=
  (splitDot cs).mapM chunkToNat

/-- Lexicographic comparison of equal-length numeric lists. -/
def numListLt : List Nat → List Nat → Bool
  | [], [] => false
  | [], _ :: _ => true
  | _ :: _, [] => false
  | a :: as, b :: bs => if a < b then true else if b < a then false else numListLt as bs

/-- Release-version comparison with zero padding, as `packaging`'s
version ordering behaves on purely numeric dotted versions. -/
def verLt (a b : List Nat) : Bool :=
  let n := max a.length b.length
  numListLt (a ++ List.replicate (n - a.length) 0)
            (b ++ List.replicate (n - b.length) 0)

/-! ## Configuration-argument computation (`build_extension`, pure part) -/

/-- Mode name chosen from the packaging system's debug flag:
`cfg = 'Debug' if self.debug else 'Release'`. -/
def cfgName (debug : Bool) : String := if debug then "Debug" else "Release"

/-- The macOS-only arguments: on a `darwin` platform, parse `ARCHFLAGS`
and, when at least one `-arch` token was found, emit the semicolon-joined
`CMAKE_OSX_ARCHITECTURES` directive. -/
def darwinArchArgs (h : Host) : List String :=
  if strStarts "darwin" h.sysPlatform then
    if findArchs ((h.environ "ARCHFLAGS").getD "").data ≠ [] then
      ["-DCMAKE_OSX_ARCHITECTURES=" ++
        joinWith ";" (findArchs ((h.environ "ARCHFLAGS").getD "").data)]
    else []
  else []

/-- The `cmake_args` / `build_args` pair assembled by
`CMakeBuild.build_extension` before the subprocess calls. -/
structure ConfigureArgs where
  cmake_args : List String
  build_args : List String
deriving Repr

/-- The platform-dependent argument computation of
`CMakeBuild.build_extension` (lines 110-131 of `setup.py`), as a pure
function of the host, the resolved output directory and the debug
flag. -/
def computeConfigureArgs (h : Host) (extdir : String) (debug : Bool) :
    ConfigureArgs :=
  let cmake_args := ["-DCMAKE_LIBRARY_OUTPUT_DIRECTORY=" ++ extdir,
                     "-DPYTHON_EXECUTABLE=" ++ h.executable]
  let cfg := cfgName debug
  let build_args := ["--config", cfg]
  let pa : ConfigureArgs :=
    if h.system = "Windows" then
      { cmake_args := cmake_args ++
          ["-DCMAKE_LIBRARY_OUTPUT_DIRECTORY_" ++ strUpper cfg ++ "=" ++ extdir]
          ++ (if 2 ^ 32 < h.maxsize then ["-A", "x64"] else []),
        build_args := build_args ++ ["--", "/m"] }
    else
      { cmake_args := cmake_args ++ ["-DCMAKE_BUILD_TYPE=" ++ cfg],
        build_args := build_args ++ ["--", "-j2"] }
  { pa with cmake_args := pa.cmake_args ++ darwinArchArgs h }

/-- The flags of a build-phase argument list that follow the `--`
separator handed to the underlying native build tool. -/
def trailingFlags (args : List String) : List String :=
  (args.dropWhile (fun a => ¬ a = "--")).tail

/-! ## Subprocess invocations and environment preparation -/

/-- One subprocess invocation: its argument vector, working directory,
and the environment passed via `env=` (`none` when the call inherits the
parent process environment). -/
structure Invocation where
  argv : List String
  cwd : String
  envp : Option (String → Option String)

/-- Functional update of an environment mapping (assignment to one
key of a copied `os.environ`). -/
def setEnv (e : String → Option String) (k v : String) :
    String → Option String :=
  fun q => if q = k then some v else e q

/-- The new `CXXFLAGS` value: the old value (empty when unset) followed
by the version-info define whose value is wrapped in escaped double
quotes. -/
def cxxflagsValue (old : Option String) (ver : String) : String :=
  old.getD "" ++ " -DVERSION_INFO=\\\"" ++ ver ++ "\\\""

/-- The environment prepared for the configure call: a copy of the
ambient environment with `CXXFLAGS` reassigned. -/
def preparedEnv (h : Host) (ver : String) : String → Option String :=
  setEnv h.environ "CXXFLAGS" (cxxflagsValue (h.environ "CXXFLAGS") ver)

/-- The configure invocation: `['cmake', ext.sourcedir] + cmake_args`,
run in the build-temp directory with the prepared environment. -/
def configureInvocation (h : Host) (ext : CMakeExtension)
    (extdir buildTemp ver : String) (debug : Bool) : Invocation :=
  { argv := ["cmake", ext.sourcedir] ++
      (computeConfigureArgs h extdir debug).cmake_args,
    cwd := buildTemp,
    envp := some (preparedEnv h ver) }

/-- The compile invocation: `['cmake', '--build', '.'] + build_args`,
run in the build-temp directory with no `env=` argument (it inherits the
parent process environment). -/
def compileInvocation (h : Host) (extdir buildTemp : String)
    (debug : Bool) : Invocation :=
  { argv := ["cmake", "--build", "."] ++
      (computeConfigureArgs h extdir debug).build_args,
    cwd := buildTemp,
    envp := none }

/-! ## Error taxonomy -/

/-- The failure kinds of a build run, one per raise site of the script
(`RuntimeError` for a missing or outdated toolchain, an unparsable
version query, and `CalledProcessError` from the external calls). -/
inductive BuildError where
  | ToolchainMissing (msg : String)
  | ToolchainTooOld (msg : String)
  | VersionQueryUnparsed
  | DependencyFetchFailed
  | ConfigureFailed
  | CompileFailed
deriving DecidableEq, Repr

/-! ## Build invocation (`build_extension`) -/

/-- Models `CMakeBuild.build_extension` for one target.  The resolved
output directory (`extdir`, computed by setuptools' `get_ext_fullpath`),
the build-temp directory and the package version are passed explicitly;
`cfgOk` and `bldOk` are the exit statuses of the configure and compile
subprocess calls.  The result is the trace of subprocess invocations
performed (a failing call is still performed) together with the error,
if any, that aborted the target.  The creation of the build-temp
directory (a filesystem effect with no bearing on the argument and
environment computation) is not traced. -/
def build_extension (h : Host) (ext : CMakeExtension)
    (extdir buildTemp ver : String) (debug : Bool) (cfgOk bldOk : Bool) :
    List Invocation × Option BuildError :=
  let cfgInv := configureInvocation h ext extdir buildTemp ver debug
  if ¬ cfgOk then ([cfgInv], some .ConfigureFailed)
  else
    let bldInv := compileInvocation h extdir buildTemp debug
    if ¬ bldOk then ([cfgInv, bldInv], some .CompileFailed)
    else ([cfgInv, bldInv], none)

/-! ## Dependency bootstrap (`install_dependencies`) -/

/-- The `git clone` invocation fetching pybind11 into `dir`. -/
def cloneInvocation (cwd dir : String) : Invocation :=
  { argv := ["git", "clone", "https://github.com/pybind/pybind11.git", dir],
    cwd := cwd, envp := none }

/-- The `git submodule update` invocation. -/
def submoduleInvocation (cwd : String) : Invocation :=
  { argv := ["git", "submodule", "update", "--init", "--recursive"],
    cwd := cwd, envp := none }

/-- Models `CMakeBuild.install_dependencies`.  The filesystem is a
predicate on paths; `cloneOk` and `subOk` are the exit statuses of the
two git calls.  If the destination directory exists, nothing happens;
otherwise the directory is created (`os.mkdir`) and the two git commands
run, the second only when the first succeeded.  The result is the new
filesystem, the invocation trace and the error, if any. -/
def install_dependencies (cwd : String) (fs : String → Bool)
    (cloneOk subOk : Bool) :
    (String → Bool) × List Invocation × Option BuildError :=
  let dir := pathJoin cwd "pybind11"
  if fs dir then (fs, [], none)
  else
    let fs2 : String → Bool := fun p => if p = dir then true else fs p
    if ¬ cloneOk then (fs2, [cloneInvocation cwd dir], some .DependencyFetchFailed)
    else if ¬ subOk then
      (fs2, [cloneInvocation cwd dir, submoduleInvocation cwd],
       some .DependencyFetchFailed)
    else (fs2, [cloneInvocation cwd dir, submoduleInvocation cwd], none)

/-! ## Toolchain check and run loop (`CMakeBuild.run`) -/

/-- The message of the `RuntimeError` raised when the tool is missing
(note the doubled space, exactly as the two source string literals
concatenate). -/
def missingMsg (exts : List CMakeExtension) : String :=
  "CMake must be installed to build the  following extensions: " ++
    joinWith " , " (exts.map CMakeExtension.name)

/-- The Windows-only minimum-version check on the version-query output:
search the output for the version group, parse it, and compare against
the fixed threshold 3.1.0. -/
def winVersionCheck (verOut : String) : Option BuildError :=
  match searchVerGroup verOut.data with
  | none => some .VersionQueryUnparsed
  | some g =>
    match parseRelease g with
    | none => some .VersionQueryUnparsed
    | some rel =>
      if verLt rel [3, 1, 0] then
        some (.ToolchainTooOld "CMake >= 3.1.0 is required on Windows")
      else none

/-- The per-target loop at the end of `CMakeBuild.run`: build each
extension in order, aborting the whole run at the first failure
(`check_call` raises).  `extdirOf` and `btOf` give each target's
resolved output directory and build-temp directory; `cfgOk` and `bldOk`
give the exit statuses of each target's configure and compile calls. -/
def buildAll (h : Host) (extdirOf btOf : String → String) (ver : String)
    (debug : Bool) (cfgOk bldOk : String → Bool) :
    List CMakeExtension → List Invocation × Option BuildError
  | [] => ([], none)
  | ext :: rest =>
    let r := build_extension h ext (extdirOf ext.name) (btOf ext.name) ver
      debug (cfgOk ext.name) (bldOk ext.name)
    match r.2 with
    | some e => (r.1, some e)
    | none =>
      let r2 := buildAll h extdirOf btOf ver debug cfgOk bldOk rest
      (r.1 ++ r2.1, r2.2)

/-- Models `CMakeBuild.run`: query the toolchain version (`avail` is
whether `cmake` could be located and invoked, `verOut` its output), on
Windows check the minimum version, then bootstrap the dependency and
build every extension.  The result is the trace of subprocess
invocations and the error, if any, that aborted the run. -/
def runBuild (h : Host) (avail : Bool) (verOut : String) (cwd : String)
    (fs : String → Bool) (cloneOk subOk : Bool)
    (extdirOf btOf : String → String) (ver : String) (debug : Bool)
    (cfgOk bldOk : String → Bool) (exts : List CMakeExtension) :
    List Invocation × Option BuildError :=
  if ¬ avail then ([], some (.ToolchainMissing (missingMsg exts)))
  else
    let queryInv : Invocation :=
      { argv := ["cmake", "--version"], cwd := cwd, envp := none }
    match (if h.system = "Windows" then winVersionCheck verOut else none) with
    | some e => ([queryInv], some e)
    | none =>
      let dep := install_dependencies cwd fs cloneOk subOk
      match dep.2.2 with
      | some e => ([queryInv] ++ dep.2.1, some e)
      | none =>
        let r := buildAll h extdirOf btOf ver debug cfgOk bldOk exts
        ([queryInv] ++ dep.2.1 ++ r.1, r.2)

/-! ## Directive classifiers -/

/-- An argument of the non-Windows build-type directive form. -/
def isBuildTypeArg (s : String) : Bool := strStarts "-DCMAKE_BUILD_TYPE=" s

/-- An argument of the Windows mode-qualified output-directory form (the
directive name carries a trailing underscore before the mode suffix). -/
def isModeDirArg (s : String) : Bool :=
  strStarts "-DCMAKE_LIBRARY_OUTPUT_DIRECTORY_" s

/-- An argument of the macOS multi-architecture directive form. -/
def isOsxArchArg (s : String) : Bool :=
  strStarts "-DCMAKE_OSX_ARCHITECTURES=" s

/-! ## Lemmas about the string primitives -/

theorem listPre_self_append (p x : List Char) : listPre p (p ++ x) = true := by
  induction p with
  | nil => rfl
  | cons a as ih => simp [listPre, ih]

theorem listPre_take_of_append {p f x : List Char}
    (h : listPre p (f ++ x) = true) : listPre (p.take f.length) f = true := by
  induction p generalizing f with
  | nil => simp [listPre]
  | cons a as ih =>
    cases f with
    | nil => simp [listPre]
    | cons b bs =>
      simp only [List.cons_append, listPre, Bool.and_eq_true,
        decide_eq_true_eq] at h
      simp [List.take, listPre, h.1, ih h.2]

theorem strStarts_self_append (p s : String) : strStarts p (p ++ s) = true := by
  simp only [strStarts, String.data_append]
  exact listPre_self_append p.data s.data

theorem strStarts_append_take {p f x : String}
    (h : strStarts p (f ++ x) = true) :
    listPre (p.data.take f.data.length) f.data = true := by
  simp only [strStarts, String.data_append] at h
  exact listPre_take_of_append h

theorem strStarts_append_false {pat f : String}
    (hne : listPre (pat.data.take f.data.length) f.data = false)
    (x : String) : strStarts pat (f ++ x) = false := by
  cases hb : strStarts pat (f ++ x) with
  | false => rfl
  | true =>
    rw [strStarts_append_take hb] at hne
    exact absurd hne (by decide)

theorem append_ne_of_len_lt {p q : String}
    (h : q.data.length < p.data.length) (x : String) : p ++ x ≠ q := by
  intro he
  have hd : (p ++ x).data = q.data := by rw [he]
  rw [String.data_append] at hd
  have := congrArg List.length hd
  simp only [List.length_append] at this
  omega

theorem data_length_append (a b : String) :
    (a ++ b).data.length = a.data.length + b.data.length := by
  rw [String.data_append, List.length_append]

/-! ## Values of the directive classifiers on each argument shape -/

@[simp] theorem isBT_libOut (x : String) :
    isBuildTypeArg ("-DCMAKE_LIBRARY_OUTPUT_DIRECTORY=" ++ x) = false :=
  strStarts_append_false (by decide) x

@[simp] theorem isBT_pyExe (x : String) :
    isBuildTypeArg ("-DPYTHON_EXECUTABLE=" ++ x) = false :=
  strStarts_append_false (by decide) x

@[simp] theorem isBT_self (x : String) :
    isBuildTypeArg ("-DCMAKE_BUILD_TYPE=" ++ x) = true :=
  strStarts_self_append _ x

@[simp] theorem isBT_modeDir (x : String) :
    isBuildTypeArg ("-DCMAKE_LIBRARY_OUTPUT_DIRECTORY_" ++ x) = false :=
  strStarts_append_false (by decide) x

@[simp] theorem isBT_osx (x : String) :
    isBuildTypeArg ("-DCMAKE_OSX_ARCHITECTURES=" ++ x) = false :=
  strStarts_append_false (by decide) x

@[simp] theorem isBT_dashA : isBuildTypeArg "-A" = false := by decide

@[simp] theorem isBT_x64 : isBuildTypeArg "x64" = false := by decide

@[simp] theorem isMD_libOut (x : String) :
    isModeDirArg ("-DCMAKE_LIBRARY_OUTPUT_DIRECTORY=" ++ x) = false :=
  strStarts_append_false (by decide) x

@[simp] theorem isMD_pyExe (x : String) :
    isModeDirArg ("-DPYTHON_EXECUTABLE=" ++ x) = false :=
  strStarts_append_false (by decide) x

@[simp] theorem isMD_bt (x : String) :
    isModeDirArg ("-DCMAKE_BUILD_TYPE=" ++ x) = false :=
  strStarts_append_false (by decide) x

@[simp] theorem isMD_self (x : String) :
    isModeDirArg ("-DCMAKE_LIBRARY_OUTPUT_DIRECTORY_" ++ x) = true :=
  strStarts_self_append _ x

@[simp] theorem isMD_osx (x : String) :
    isModeDirArg ("-DCMAKE_OSX_ARCHITECTURES=" ++ x) = false :=
  strStarts_append_false (by decide) x

@[simp] theorem isMD_dashA : isModeDirArg "-A" = false := by decide

@[simp] theorem isMD_x64 : isModeDirArg "x64" = false := by decide

@[simp] theorem isOSX_libOut (x : String) :
    isOsxArchArg ("-DCMAKE_LIBRARY_OUTPUT_DIRECTORY=" ++ x) = false :=
  strStarts_append_false (by decide) x

@[simp] theorem isOSX_pyExe (x : String) :
    isOsxArchArg ("-DPYTHON_EXECUTABLE=" ++ x) = false :=
  strStarts_append_false (by decide) x

@[simp] theorem isOSX_bt (x : String) :
    isOsxArchArg ("-DCMAKE_BUILD_TYPE=" ++ x) = false :=
  strStarts_append_false (by decide) x

@[simp] theorem isOSX_modeDir (x : String) :
    isOsxArchArg ("-DCMAKE_LIBRARY_OUTPUT_DIRECTORY_" ++ x) = false :=
  strStarts_append_false (by decide) x

@[simp] theorem isOSX_self (x : String) :
    isOsxArchArg ("-DCMAKE_OSX_ARCHITECTURES=" ++ x) = true :=
  strStarts_self_append _ x

@[simp] theorem isOSX_dashA : isOsxArchArg "-A" = false := by decide

@[simp] theorem isOSX_x64 : isOsxArchArg "x64" = false := by decide

/-! ## Claim theorems -/

/-- C1: for every value of the debug flag, the computed configuration
mode is `Debug` iff the flag is true and `Release` otherwise, the mode
follows `--config` in the compile-phase arguments, and the mode appears
in the configure arguments (in the mode-qualified output-directory
directive on Windows, in the build-type directive elsewhere). -/
theorem claim_C1 (h : Host) (extdir : String) (debug : Bool) :
    (cfgName debug = "Debug" ↔ debug = true) ∧
    (cfgName debug = "Release" ↔ debug = false) ∧
    (computeConfigureArgs h extdir debug).build_args.take 2 =
      ["--config", cfgName debug] ∧
    (h.system = "Windows" →
      ("-DCMAKE_LIBRARY_OUTPUT_DIRECTORY_" ++ strUpper (cfgName debug) ++ "="
        ++ extdir) ∈ (computeConfigureArgs h extdir debug).cmake_args) ∧
    (h.system ≠ "Windows" →
      ("-DCMAKE_BUILD_TYPE=" ++ cfgName debug)
        ∈ (computeConfigureArgs h extdir debug).cmake_args) := by
  refine ⟨by cases debug <;> decide, by cases debug <;> decide, ?_, ?_, ?_⟩
  · by_cases hw : h.system = "Windows" <;>
      simp [computeConfigureArgs, hw]
  · intro hw
    simp [computeConfigureArgs, hw]
  · intro hw
    simp [computeConfigureArgs, hw]

theorem ne_append3_of_lt {q f : String} (h : q.data.length < f.data.length)
    (u g e : String) : q ≠ f ++ u ++ g ++ e := by
  intro he
  rw [he] at h
  rw [data_length_append, data_length_append, data_length_append] at h
  omega

theorem ne_append1_of_lt {q f : String} (h : q.data.length < f.data.length)
    (x : String) : q ≠ f ++ x := by
  intro he
  rw [he] at h
  rw [data_length_append] at h
  omega

theorem dashA_notin_darwin (h : Host) : "-A" ∉ darwinArchArgs h := by
  unfold darwinArchArgs
  split
  · split
    · simp only [List.mem_singleton]
      exact ne_append1_of_lt (by decide) _
    · exact List.not_mem_nil _
  · exact List.not_mem_nil _

theorem x64_notin_darwin (h : Host) : "x64" ∉ darwinArchArgs h := by
  unfold darwinArchArgs
  split
  · split
    · simp only [List.mem_singleton]
      exact ne_append1_of_lt (by decide) _
    · exact List.not_mem_nil _
  · exact List.not_mem_nil _

/-- C2: on Windows the configure arguments carry the mode-qualified
output-directory directive (name suffixed with the uppercased mode) and
the `-A x64` selector exactly when the host pointer range exceeds 32
bits; on every other platform they carry exactly one build-type
directive equal to the mode name and no mode-qualified output-directory
directive. -/
theorem claim_C2 (h : Host) (extdir : String) (debug : Bool) :
    (h.system = "Windows" →
      (computeConfigureArgs h extdir debug).cmake_args =
        ["-DCMAKE_LIBRARY_OUTPUT_DIRECTORY=" ++ extdir,
         "-DPYTHON_EXECUTABLE=" ++ h.executable,
         "-DCMAKE_LIBRARY_OUTPUT_DIRECTORY_" ++ strUpper (cfgName debug)
           ++ "=" ++ extdir]
        ++ (if 2 ^ 32 < h.maxsize then ["-A", "x64"] else [])
        ++ darwinArchArgs h ∧
      (("-A" ∈ (computeConfigureArgs h extdir debug).cmake_args ∧
        "x64" ∈ (computeConfigureArgs h extdir debug).cmake_args) ↔
        2 ^ 32 < h.maxsize)) ∧
    (h.system ≠ "Windows" →
      (computeConfigureArgs h extdir debug).cmake_args =
        ["-DCMAKE_LIBRARY_OUTPUT_DIRECTORY=" ++ extdir,
         "-DPYTHON_EXECUTABLE=" ++ h.executable,
         "-DCMAKE_BUILD_TYPE=" ++ cfgName debug]
        ++ darwinArchArgs h ∧
      List.countP isBuildTypeArg
        (computeConfigureArgs h extdir debug).cmake_args = 1 ∧
      List.countP isModeDirArg
        (computeConfigureArgs h extdir debug).cmake_args = 0) := by
  constructor
  · intro hw
    have hargs : (computeConfigureArgs h extdir debug).cmake_args =
        ["-DCMAKE_LIBRARY_OUTPUT_DIRECTORY=" ++ extdir,
         "-DPYTHON_EXECUTABLE=" ++ h.executable,
         "-DCMAKE_LIBRARY_OUTPUT_DIRECTORY_" ++ strUpper (cfgName debug)
           ++ "=" ++ extdir]
        ++ (if 2 ^ 32 < h.maxsize then ["-A", "x64"] else [])
        ++ darwinArchArgs h := by
      simp [computeConfigureArgs, hw]
    refine ⟨hargs, ?_⟩
    rw [hargs]
    by_cases hbig : 2 ^ 32 < h.maxsize
    · rw [if_pos hbig]
      constructor
      · intro _
        exact hbig
      · intro _
        constructor <;> simp
    · rw [if_neg hbig, List.append_nil]
      constructor
      · rintro ⟨hA, -⟩
        rcases List.mem_append.mp hA with hA | hA
        · simp only [List.mem_cons, List.not_mem_nil, or_false] at hA
          rcases hA with hA | hA | hA
          · exact absurd hA (ne_append1_of_lt (by decide) extdir)
          · exact absurd hA (ne_append1_of_lt (by decide) h.executable)
          · exact absurd hA (ne_append3_of_lt (by decide) _ "=" extdir)
        · exact absurd hA (dashA_notin_darwin h)
      · intro hb
        exact absurd hb hbig
  · intro hw
    have hargs : (computeConfigureArgs h extdir debug).cmake_args =
        ["-DCMAKE_LIBRARY_OUTPUT_DIRECTORY=" ++ extdir,
         "-DPYTHON_EXECUTABLE=" ++ h.executable,
         "-DCMAKE_BUILD_TYPE=" ++ cfgName debug]
        ++ darwinArchArgs h := by
      simp [computeConfigureArgs, hw]
    refine ⟨hargs, ?_, ?_⟩
    · rw [hargs]
      unfold darwinArchArgs
      split
      · split
        · simp [List.countP_cons, List.countP_append]
        · simp [List.countP_cons]
      · simp [List.countP_cons]
    · rw [hargs]
      unfold darwinArchArgs
      split
      · split
        · simp [List.countP_cons, List.countP_append]
        · simp [List.countP_cons]
      · simp [List.countP_cons]

/-! ## Concrete hosts used by the witnesses -/

/-- A 64-bit Linux host with an empty relevant environment. -/
def hostLinux : Host :=
  { system := "Linux", sysPlatform := "linux", maxsize := 2 ^ 63 - 1,
    executable := "/usr/bin/python3", environ := fun _ => none }

/-- A 64-bit Windows host. -/
def hostWin : Host :=
  { system := "Windows", sysPlatform := "win32", maxsize := 2 ^ 63 - 1,
    executable := "C:/python.exe", environ := fun _ => none }

/-- A 64-bit macOS host with `ARCHFLAGS` requesting a universal build. -/
def hostMacArch : Host :=
  { system := "Darwin", sysPlatform := "darwin", maxsize := 2 ^ 63 - 1,
    executable := "/usr/bin/python3",
    environ := fun k =>
      if k = "ARCHFLAGS" then some "-arch x86_64 -arch arm64" else none }

/-- Witness for C1 at a concrete non-Windows host. -/
theorem claim_C1_witness :
    ("-DCMAKE_BUILD_TYPE=" ++ cfgName false)
      ∈ (computeConfigureArgs hostLinux "/out" false).cmake_args :=
  (claim_C1 hostLinux "/out" false).2.2.2.2 (by decide)

/-- Witness for C2 at a concrete 64-bit Windows host. -/
theorem claim_C2_witness :
    (computeConfigureArgs hostWin "/out" true).cmake_args =
      ["-DCMAKE_LIBRARY_OUTPUT_DIRECTORY=/out",
       "-DPYTHON_EXECUTABLE=C:/python.exe",
       "-DCMAKE_LIBRARY_OUTPUT_DIRECTORY_DEBUG=/out", "-A", "x64"] := by
  have h2 := (claim_C2 hostWin "/out" true).1 (by decide)
  rw [h2.1]
  decide

/-- C3: for the target named `pyflagser` with source directory `/repo`,
release mode, on a non-Windows non-macOS host, the configure call passes
exactly the library-output directive, the interpreter-path directive and
a single `CMAKE_BUILD_TYPE=Release` directive, in that order, and the
compile call's flags after the `--` separator are exactly `-j2`. -/
theorem claim_C3 (h : Host) (cwd extdir buildTemp ver : String) (bldOk : Bool)
    (hw : h.system ≠ "Windows")
    (hd : strStarts "darwin" h.sysPlatform = false) :
    (computeConfigureArgs h extdir false).cmake_args =
      ["-DCMAKE_LIBRARY_OUTPUT_DIRECTORY=" ++ extdir,
       "-DPYTHON_EXECUTABLE=" ++ h.executable,
       "-DCMAKE_BUILD_TYPE=Release"] ∧
    (build_extension h (CMakeExtension.init cwd "pyflagser" "/repo")
        extdir buildTemp ver false true bldOk).1 =
      [{ argv := ["cmake", "/repo",
                  "-DCMAKE_LIBRARY_OUTPUT_DIRECTORY=" ++ extdir,
                  "-DPYTHON_EXECUTABLE=" ++ h.executable,
                  "-DCMAKE_BUILD_TYPE=Release"],
         cwd := buildTemp, envp := some (preparedEnv h ver) },
       { argv := ["cmake", "--build", ".", "--config", "Release", "--", "-j2"],
         cwd := buildTemp, envp := none }] ∧
    (computeConfigureArgs h extdir false).build_args =
      ["--config", "Release", "--", "-j2"] ∧
    trailingFlags (computeConfigureArgs h extdir false).build_args =
      ["-j2"] := by
  have hbt : ("-DCMAKE_BUILD_TYPE=" ++ cfgName false) =
      "-DCMAKE_BUILD_TYPE=Release" := by decide
  have hargs : (computeConfigureArgs h extdir false).cmake_args =
      ["-DCMAKE_LIBRARY_OUTPUT_DIRECTORY=" ++ extdir,
       "-DPYTHON_EXECUTABLE=" ++ h.executable,
       "-DCMAKE_BUILD_TYPE=Release"] := by
    simp [computeConfigureArgs, hw, darwinArchArgs, hd, hbt]
  have hbargs : (computeConfigureArgs h extdir false).build_args =
      ["--config", "Release", "--", "-j2"] := by
    simp [computeConfigureArgs, hw, cfgName]
  have hsd : (CMakeExtension.init cwd "pyflagser" "/repo").sourcedir =
      "/repo" := by
    rw [CMakeExtension.init, abspath,
      if_pos (by decide : isAbs "/repo" = true)]
    decide
  refine ⟨hargs, ?_, hbargs, by rw [hbargs]; decide⟩
  cases bldOk <;>
    simp [build_extension, configureInvocation, compileInvocation,
      hargs, hbargs, hsd]

/-- Witness for C3 at a concrete Linux host. -/
theorem claim_C3_witness :
    (computeConfigureArgs hostLinux "/out" false).cmake_args =
      ["-DCMAKE_LIBRARY_OUTPUT_DIRECTORY=/out",
       "-DPYTHON_EXECUTABLE=/usr/bin/python3",
       "-DCMAKE_BUILD_TYPE=Release"] ∧
    trailingFlags (computeConfigureArgs hostLinux "/out" false).build_args =
      ["-j2"] := by
  have h3 := claim_C3 hostLinux "/tmp/w" "/out" "/bt" "0.1" true
    (by decide) (by decide)
  refine ⟨?_, h3.2.2.2⟩
  rw [h3.1]
  decide

/-- C4: on a macOS host, with `ARCHFLAGS` set to
`-arch x86_64 -arch arm64` the configure arguments carry exactly one
architecture directive, whose value is the semicolon-joined
`x86_64;arm64`; with the variable unset, empty, or containing no `-arch`
token, no architecture directive is emitted. -/
theorem claim_C4 (h : Host) (extdir : String) (debug : Bool)
    (hsys : h.system = "Darwin")
    (hd : strStarts "darwin" h.sysPlatform = true) :
    (h.environ "ARCHFLAGS" = some "-arch x86_64 -arch arm64" →
      List.countP isOsxArchArg
        (computeConfigureArgs h extdir debug).cmake_args = 1 ∧
      "-DCMAKE_OSX_ARCHITECTURES=x86_64;arm64"
        ∈ (computeConfigureArgs h extdir debug).cmake_args) ∧
    ((h.environ "ARCHFLAGS" = none ∨ h.environ "ARCHFLAGS" = some "" ∨
        findArchs ((h.environ "ARCHFLAGS").getD "").data = []) →
      List.countP isOsxArchArg
        (computeConfigureArgs h extdir debug).cmake_args = 0) := by
  have hw : h.system ≠ "Windows" := by rw [hsys]; decide
  have hargs : (computeConfigureArgs h extdir debug).cmake_args =
      ["-DCMAKE_LIBRARY_OUTPUT_DIRECTORY=" ++ extdir,
       "-DPYTHON_EXECUTABLE=" ++ h.executable,
       "-DCMAKE_BUILD_TYPE=" ++ cfgName debug] ++ darwinArchArgs h := by
    simp [computeConfigureArgs, hw]
  constructor
  · intro ha
    have hda : darwinArchArgs h =
        ["-DCMAKE_OSX_ARCHITECTURES=x86_64;arm64"] := by
      rw [darwinArchArgs, if_pos hd, ha]
      decide
    rw [hargs, hda]
    have hlit : isOsxArchArg "-DCMAKE_OSX_ARCHITECTURES=x86_64;arm64"
        = true := by decide
    constructor
    · simp [List.countP_append, List.countP_cons, hlit]
    · simp
  · intro hb
    have hda : darwinArchArgs h = [] := by
      rw [darwinArchArgs, if_pos hd]
      rcases hb with hb | hb | hb
      · rw [hb]
        decide
      · rw [hb]
        decide
      · simp [hb]
    rw [hargs, hda, List.append_nil]
    simp [List.countP_cons]

/-- Witness for C4 at a concrete macOS host requesting a universal
build. -/
theorem claim_C4_witness :
    List.countP isOsxArchArg
      (computeConfigureArgs hostMacArch "/out" false).cmake_args = 1 ∧
    "-DCMAKE_OSX_ARCHITECTURES=x86_64;arm64"
      ∈ (computeConfigureArgs hostMacArch "/out" false).cmake_args :=
  (claim_C4 hostMacArch "/out" false (by decide) (by decide)).1 (by decide)

/-- C5 counterexample: at a concrete input the claim "the prepared
environment is supplied to both subprocess invocations" fails — the
second (compile) invocation of `build_extension` carries no environment
argument at all. -/
theorem claim_C5_counterexample :
    ¬ (∀ inv ∈ (build_extension hostLinux
        (CMakeExtension.init "/w" "pyflagser" "/repo") "/out" "/bt" "0.1"
        false true true).1, inv.envp.isSome = true) := by
  intro hall
  have hmem : compileInvocation hostLinux "/out" "/bt" false ∈
      (build_extension hostLinux
        (CMakeExtension.init "/w" "pyflagser" "/repo") "/out" "/bt" "0.1"
        false true true).1 := by
    simp [build_extension]
  have h2 := hall _ hmem
  simp [compileInvocation] at h2

/-- C5 amended: the build prepares a copy of the ambient environment
with a quoted version-info define appended to the compiler-flags
variable, leaves the ambient environment itself untouched at every other
key, and supplies that copy to the configure invocation only; the
compile invocation passes no environment and thus inherits the parent
process environment. -/
theorem claim_C5_amended (h : Host) (ext : CMakeExtension)
    (extdir buildTemp ver : String) (debug bldOk : Bool) :
    (build_extension h ext extdir buildTemp ver debug true bldOk).1 =
      [configureInvocation h ext extdir buildTemp ver debug,
       compileInvocation h extdir buildTemp debug] ∧
    (configureInvocation h ext extdir buildTemp ver debug).envp =
      some (preparedEnv h ver) ∧
    preparedEnv h ver "CXXFLAGS" =
      some ((h.environ "CXXFLAGS").getD "" ++ " -DVERSION_INFO=\\\""
        ++ ver ++ "\\\"") ∧
    (∀ k, k ≠ "CXXFLAGS" → preparedEnv h ver k = h.environ k) ∧
    (compileInvocation h extdir buildTemp debug).envp = none := by
  refine ⟨?_, rfl, ?_, ?_, rfl⟩
  · cases bldOk <;> simp [build_extension]
  · simp [preparedEnv, setEnv, cxxflagsValue]
  · intro k hk
    simp [preparedEnv, setEnv, hk]

/-- Witness for the amended C5 at a concrete input. -/
theorem claim_C5_witness :
    (compileInvocation hostLinux "/out" "/bt" false).envp = none :=
  (claim_C5_amended hostLinux (CMakeExtension.init "/w" "pyflagser" "/repo")
    "/out" "/bt" "0.1" false true).2.2.2.2

/-- A git-clone (fetch) invocation. -/
def isGitClone (i : Invocation) : Bool := i.argv.take 2 = ["git", "clone"]

/-- C6: `install_dependencies` is idempotent — after one call the
destination directory exists, so a second call with the same working
directory changes nothing and performs no invocation; across the two
calls at most one fetch is performed, and when the directory already
exists the first call is itself a no-op (bare existence is the only
check). -/
theorem claim_C6 (cwd : String) (fs : String → Bool) (c1 s1 c2 s2 : Bool) :
    (install_dependencies cwd
        (install_dependencies cwd fs c1 s1).1 c2 s2).2.1 = [] ∧
    (install_dependencies cwd
        (install_dependencies cwd fs c1 s1).1 c2 s2).1 =
      (install_dependencies cwd fs c1 s1).1 ∧
    List.countP isGitClone
      ((install_dependencies cwd fs c1 s1).2.1 ++
        (install_dependencies cwd
          (install_dependencies cwd fs c1 s1).1 c2 s2).2.1) ≤ 1 ∧
    (fs (pathJoin cwd "pybind11") = true →
      (install_dependencies cwd fs c1 s1).2.1 = []) := by
  have hdir : (install_dependencies cwd fs c1 s1).1
      (pathJoin cwd "pybind11") = true := by
    by_cases hfs : fs (pathJoin cwd "pybind11") = true
    · simp [install_dependencies, hfs]
    · by_cases hc : c1 <;> by_cases hs : s1 <;>
        simp [install_dependencies, hfs, hc, hs]
  have h2 : install_dependencies cwd
      (install_dependencies cwd fs c1 s1).1 c2 s2 =
      ((install_dependencies cwd fs c1 s1).1, [], none) := by
    rw [install_dependencies, if_pos hdir]
  refine ⟨by rw [h2], by rw [h2], ?_, ?_⟩
  · rw [h2]
    by_cases hfs : fs (pathJoin cwd "pybind11") = true
    · simp [install_dependencies, hfs]
    · by_cases hc : c1 <;> by_cases hs : s1 <;>
        simp [install_dependencies, hfs, hc, hs, isGitClone,
          cloneInvocation, submoduleInvocation, List.countP_cons]
  · intro hfs
    simp [install_dependencies, hfs]

/-- Witness for C6 at a concrete input. -/
theorem claim_C6_witness :
    (install_dependencies "/w"
        (install_dependencies "/w" (fun _ => false) true true).1
        true true).2.1 = [] :=
  (claim_C6 "/w" (fun _ => false) true true true true).1

/-- C7: with the external tool unavailable, the run fails with the
toolchain-missing error naming the extensions, and its invocation trace
is empty — in particular no configure or compile call happens for any
target. -/
theorem claim_C7 (h : Host) (verOut cwd : String) (fs : String → Bool)
    (cloneOk subOk : Bool) (extdirOf btOf : String → String) (ver : String)
    (debug : Bool) (cfgOk bldOk : String → Bool)
    (exts : List CMakeExtension) :
    runBuild h false verOut cwd fs cloneOk subOk extdirOf btOf ver debug
      cfgOk bldOk exts =
      ([], some (BuildError.ToolchainMissing (missingMsg exts))) := by
  simp [runBuild]

/-- Witness for C7 at a concrete input. -/
theorem claim_C7_witness :
    runBuild hostLinux false "" "/w" (fun _ => false) true true
      (fun _ => "/out") (fun _ => "/bt") "0.1" false
      (fun _ => true) (fun _ => true)
      [CMakeExtension.init "/w" "pyflagser" "/repo"] =
      ([], some (BuildError.ToolchainMissing
        ("CMake must be installed to build the  following extensions: "
          ++ "pyflagser"))) := by
  rw [claim_C7]
  have hmsg : missingMsg [CMakeExtension.init "/w" "pyflagser" "/repo"] =
      "CMake must be installed to build the  following extensions: "
        ++ "pyflagser" := by decide
  rw [hmsg]

/-- C9: a failing configure exit status makes `build_extension` stop
with the configure-failed error after the configure invocation alone —
the compile invocation is never part of the trace; conversely the
compile invocation appears in a trace only when configure succeeded, and
then only after the configure invocation. -/
theorem claim_C9 (h : Host) (ext : CMakeExtension)
    (extdir buildTemp ver : String) (debug bldOk : Bool) :
    build_extension h ext extdir buildTemp ver debug false bldOk =
      ([configureInvocation h ext extdir buildTemp ver debug],
        some BuildError.ConfigureFailed) ∧
    compileInvocation h extdir buildTemp debug ∉
      (build_extension h ext extdir buildTemp ver debug false bldOk).1 ∧
    (∀ cfgOk : Bool,
      compileInvocation h extdir buildTemp debug ∈
        (build_extension h ext extdir buildTemp ver debug cfgOk bldOk).1 →
      cfgOk = true ∧
      (build_extension h ext extdir buildTemp ver debug cfgOk bldOk).1 =
        [configureInvocation h ext extdir buildTemp ver debug,
         compileInvocation h extdir buildTemp debug]) := by
  have hne : compileInvocation h extdir buildTemp debug ≠
      configureInvocation h ext extdir buildTemp ver debug := by
    intro he
    have h2 := congrArg Invocation.envp he
    simp [compileInvocation, configureInvocation] at h2
  refine ⟨by simp [build_extension], ?_, ?_⟩
  · simp only [build_extension]
    simp [hne]
  · intro cfgOk hmem
    cases cfgOk with
    | false =>
      simp only [build_extension] at hmem
      simp [hne] at hmem
    | true =>
      refine ⟨rfl, ?_⟩
      cases bldOk <;> simp [build_extension]

/-- Witness for C9 at a concrete input. -/
theorem claim_C9_witness :
    build_extension hostLinux
        (CMakeExtension.init "/w" "pyflagser" "/repo") "/out" "/bt" "0.1"
        false false true =
      ([configureInvocation hostLinux
          (CMakeExtension.init "/w" "pyflagser" "/repo") "/out" "/bt" "0.1"
          false],
        some BuildError.ConfigureFailed) :=
  (claim_C9 hostLinux (CMakeExtension.init "/w" "pyflagser" "/repo")
    "/out" "/bt" "0.1" false true).1

theorem build_extension_err_cases (h : Host) (ext : CMakeExtension)
    (extdir buildTemp ver : String) (debug cfgOk bldOk : Bool) :
    (build_extension h ext extdir buildTemp ver debug cfgOk bldOk).2 = none ∨
    (build_extension h ext extdir buildTemp ver debug cfgOk bldOk).2 =
      some BuildError.ConfigureFailed ∨
    (build_extension h ext extdir buildTemp ver debug cfgOk bldOk).2 =
      some BuildError.CompileFailed := by
  cases cfgOk <;> cases bldOk <;> simp [build_extension]

theorem buildAll_err_cases (h : Host) (extdirOf btOf : String → String)
    (ver : String) (debug : Bool) (cfgOk bldOk : String → Bool)
    (exts : List CMakeExtension) :
    (buildAll h extdirOf btOf ver debug cfgOk bldOk exts).2 = none ∨
    (buildAll h extdirOf btOf ver debug cfgOk bldOk exts).2 =
      some BuildError.ConfigureFailed ∨
    (buildAll h extdirOf btOf ver debug cfgOk bldOk exts).2 =
      some BuildError.CompileFailed := by
  induction exts with
  | nil => simp [buildAll]
  | cons e rest ih =>
    simp only [buildAll]
    rcases build_extension_err_cases h e (extdirOf e.name) (btOf e.name)
        ver debug (cfgOk e.name) (bldOk e.name) with h0 | h0 | h0 <;>
      rw [h0] <;> simp [ih]

theorem install_dependencies_err_cases (cwd : String) (fs : String → Bool)
    (c s : Bool) :
    (install_dependencies cwd fs c s).2.2 = none ∨
    (install_dependencies cwd fs c s).2.2 =
      some BuildError.DependencyFetchFailed := by
  by_cases hfs : fs (pathJoin cwd "pybind11") = true
  · simp [install_dependencies, hfs]
  · cases c <;> cases s <;> simp [install_dependencies, hfs]

/-- C8: only on Windows does the run parse the tool's reported version
and fail with the too-old error exactly when the parsed release is below
the fixed 3.1.0 threshold; on every other platform the run can produce
neither the too-old error nor a version-parse failure. -/
theorem claim_C8 (h : Host) (verOut cwd : String) (fs : String → Bool)
    (cloneOk subOk : Bool) (extdirOf btOf : String → String) (ver : String)
    (debug : Bool) (cfgOk bldOk : String → Bool)
    (exts : List CMakeExtension) (g : List Char) (rel : List Nat) :
    (h.system = "Windows" → searchVerGroup verOut.data = some g →
      parseRelease g = some rel →
      ((runBuild h true verOut cwd fs cloneOk subOk extdirOf btOf ver debug
          cfgOk bldOk exts).2 =
        some (BuildError.ToolchainTooOld
          "CMake >= 3.1.0 is required on Windows") ↔
        verLt rel [3, 1, 0] = true)) ∧
    (h.system ≠ "Windows" →
      (∀ m, (runBuild h true verOut cwd fs cloneOk subOk extdirOf btOf ver
          debug cfgOk bldOk exts).2 ≠ some (BuildError.ToolchainTooOld m)) ∧
      (runBuild h true verOut cwd fs cloneOk subOk extdirOf btOf ver debug
        cfgOk bldOk exts).2 ≠ some BuildError.VersionQueryUnparsed) := by
  constructor
  · intro hw hg hr
    by_cases hv : verLt rel [3, 1, 0] = true
    · simp [runBuild, hw, winVersionCheck, hg, hr, hv]
    · simp only [runBuild, hw, winVersionCheck, hg, hr, hv]
      simp only [if_true, if_false, Bool.not_true, not_false_iff]
      rcases install_dependencies_err_cases cwd fs cloneOk subOk with
        hd | hd <;> rw [hd] <;> simp [hv]
      rcases buildAll_err_cases h extdirOf btOf ver debug cfgOk bldOk exts
        with hb | hb | hb <;> rw [hb] <;> simp
  · intro hw
    constructor
    · intro m
      simp only [runBuild, hw, if_false]
      rcases install_dependencies_err_cases cwd fs cloneOk subOk with
        hd | hd <;> rw [hd] <;> simp
      rcases buildAll_err_cases h extdirOf btOf ver debug cfgOk bldOk exts
        with hb | hb | hb <;> rw [hb] <;> simp
    · simp only [runBuild, hw, if_false]
      rcases install_dependencies_err_cases cwd fs cloneOk subOk with
        hd | hd <;> rw [hd] <;> simp
      rcases buildAll_err_cases h extdirOf btOf ver debug cfgOk bldOk exts
        with hb | hb | hb <;> rw [hb] <;> simp

/-- Witness for C8 at a concrete Windows host reporting version 3.0.2. -/
theorem claim_C8_witness :
    (runBuild hostWin true "cmake version 3.0.2" "/w" (fun _ => false)
        true true (fun _ => "/out") (fun _ => "/bt") "0.1" false
        (fun _ => true) (fun _ => true)
        [CMakeExtension.init "/w" "pyflagser" "/repo"]).2 =
      some (BuildError.ToolchainTooOld
        "CMake >= 3.1.0 is required on Windows") :=
  ((claim_C8 hostWin "cmake version 3.0.2" "/w" (fun _ => false) true true
      (fun _ => "/out") (fun _ => "/bt") "0.1" false (fun _ => true)
      (fun _ => true) [CMakeExtension.init "/w" "pyflagser" "/repo"]
      "3.0.2".data [3, 0, 2]).1 (by decide) (by decide) (by decide)).mpr
    (by decide)

/-! ## Path lemmas for the target-descriptor claim -/

theorem isAbs_append (a b : String) (h : isAbs a = true) :
    isAbs (a ++ b) = true := by
  simp only [isAbs, decide_eq_true_eq] at h ⊢
  rw [String.data_append]
  cases hd : a.data with
  | nil => rw [hd] at h; simp at h
  | cons c t =>
    rw [hd] at h
    simpa using h

theorem isAbs_pathJoin (b : String) {a : String} (h : isAbs a = true) :
    isAbs (pathJoin a b) = true := by
  unfold pathJoin
  by_cases hb : isAbs b = true
  · rw [if_pos hb]
    exact hb
  · rw [if_neg hb]
    by_cases h2 : a = "" ∨ endsWithSlash a = true
    · rw [if_pos h2]
      exact isAbs_append a b h
    · rw [if_neg h2]
      exact isAbs_append _ b (isAbs_append a "/" h)

theorem leadSlashes_one_or_two {l : List Char} (h : l.head? = some '/') :
    leadSlashes l = 1 ∨ leadSlashes l = 2 := by
  unfold leadSlashes
  rw [if_pos h]
  by_cases h2 : ((l.drop 1).head? = some '/' ∧ ¬ (l.drop 2).head? = some '/')
  · right
    rw [if_pos h2]
  · left
    rw [if_neg h2]

theorem isAbs_normpath {p : String} (h : isAbs p = true) :
    isAbs (normpath p) = true := by
  have hh : p.data.head? = some '/' := by
    simpa [isAbs] using h
  have hne : ¬ p.data = [] := by
    intro h0
    rw [h0] at hh
    simp at hh
  simp only [normpath, if_neg hne]
  have hs1 : ("/" : String).data = ['/'] := rfl
  have hs2 : ("//" : String).data = ['/', '/'] := rfl
  rcases leadSlashes_one_or_two hh with hs | hs <;>
    rw [hs] <;>
    simp [slashString, isAbs, String.data_append, hs1, hs2]

theorem splitSlash_ne_nil (l : List Char) : splitSlash l ≠ [] := by
  cases l with
  | nil => simp [splitSlash]
  | cons c t =>
    simp only [splitSlash]
    split <;> simp

theorem splitSlash_append_slash (l : List Char) :
    splitSlash (l ++ ['/']) = splitSlash l ++ [[]] := by
  induction l with
  | nil => rfl
  | cons c l ih =>
    show splitSlash (c :: (l ++ ['/'])) = splitSlash (c :: l) ++ [[]]
    simp only [splitSlash, ih]
    by_cases hc : c = '/'
    · simp [hc]
    · rcases hsp : splitSlash l with _ | ⟨g, gs⟩
      · exact absurd hsp (splitSlash_ne_nil l)
      · simp [hc, hsp]

theorem npStep_nil_comp (k : Nat) (acc : List (List Char)) :
    npStep k acc [] = acc := by
  simp [npStep]

theorem leadSlashes_append_slash {l : List Char} (hh : l.head? = some '/')
    (hl : l.getLast? ≠ some '/') :
    leadSlashes (l ++ ['/']) = leadSlashes l := by
  obtain ⟨t, rfl⟩ : ∃ t, l = '/' :: t := by
    cases hd : l with
    | nil => rw [hd] at hh; simp at hh
    | cons c t =>
      rw [hd] at hh
      simp only [List.head?_cons, Option.some.injEq] at hh
      exact ⟨t, by rw [hh]⟩
  rcases t with _ | ⟨c, t2⟩
  · simp at hl
  · by_cases hc : c = '/'
    · subst hc
      rcases t2 with _ | ⟨c2, t3⟩
      · simp at hl
      · simp [leadSlashes]
    · simp [leadSlashes, hc]

theorem normpath_append_slash {a : String} (ha : isAbs a = true)
    (he : endsWithSlash a = false) : normpath (a ++ "/") = normpath a := by
  have hh : a.data.head? = some '/' := by
    simpa [isAbs] using ha
  have hglast : a.data.getLast? ≠ some '/' := by
    simpa [endsWithSlash] using he
  have hdap : (a ++ "/").data = a.data ++ ['/'] := by
    rw [String.data_append]
  have hne : ¬ a.data = [] := by
    intro h0
    rw [h0] at hh
    simp at hh
  simp only [normpath, if_neg hne, hdap,
    leadSlashes_append_slash hh hglast, splitSlash_append_slash,
    List.foldl_append, List.foldl_cons, List.foldl_nil, npStep_nil_comp]
  rw [if_neg (by simp : ¬ (a.data ++ ['/'] : List Char) = [])]

theorem abspath_empty {cwd : String} (ha : isAbs cwd = true)
    (hn : normpath cwd = cwd) : abspath cwd "" = cwd := by
  unfold abspath
  rw [if_neg (by decide : ¬ isAbs "" = true)]
  unfold pathJoin
  rw [if_neg (by decide : ¬ isAbs "" = true)]
  have hne : ¬ cwd = "" := by
    intro h0
    rw [h0] at ha
    exact absurd ha (by decide)
  by_cases hes : endsWithSlash cwd = true
  · rw [if_pos (Or.inr hes), String.append_empty]
    exact hn
  · rw [if_neg (fun hor => hor.elim hne hes), String.append_empty,
      normpath_append_slash ha ((Bool.not_eq_true _) ▸ hes)]
    exact hn

/-- C10: for every name and source-directory string, the constructed
target descriptor has an empty compiled-sources list and a source
directory equal to the absolute normalization of the given path; the
result is always an absolute path, and for an empty source-directory
argument it is the (normalized) current working directory itself. -/
theorem claim_C10 (cwd name sd : String) (ha : isAbs cwd = true)
    (hn : normpath cwd = cwd) :
    (CMakeExtension.init cwd name sd).sources = [] ∧
    (CMakeExtension.init cwd name sd).sourcedir = abspath cwd sd ∧
    isAbs (CMakeExtension.init cwd name sd).sourcedir = true ∧
    (sd = "" → (CMakeExtension.init cwd name sd).sourcedir = cwd) := by
  refine ⟨rfl, rfl, ?_, ?_⟩
  · show isAbs (abspath cwd sd) = true
    unfold abspath
    by_cases hsd : isAbs sd = true
    · rw [if_pos hsd]
      exact isAbs_normpath hsd
    · rw [if_neg hsd]
      exact isAbs_normpath (isAbs_pathJoin sd ha)
  · intro h0
    show abspath cwd sd = cwd
    rw [h0]
    exact abspath_empty ha hn

/-- Witness for C10 at a concrete working directory and empty
source-directory argument. -/
theorem claim_C10_witness :
    (CMakeExtension.init "/home/user" "pyflagser" "").sources = [] ∧
    (CMakeExtension.init "/home/user" "pyflagser" "").sourcedir =
      "/home/user" :=
  ⟨(claim_C10 "/home/user" "pyflagser" "" (by decide) (by decide)).1,
   (claim_C10 "/home/user" "pyflagser" "" (by decide) (by decide)).2.2.2 rfl⟩
